import Mathlib

set_option maxRecDepth 40000

/-!
Verification of the PV reporting pipeline in `app.py` against its
natural-language specification.

The Python source is shallowly embedded below.  Strings are handled at the
character-list level with structural-recursive primitives mirroring the
Python string operations used by the code (`str.strip`, `str.split`,
`str.replace`, `str.startswith`/`endswith`, slicing), so every definition
evaluates by kernel reduction.  Floating-point values are modelled as exact
rationals; `np.nan` / absent readings are modelled as `Option ℚ = none`.
Python's unbounded calendar is idealised as an unbounded day count
(an `Int` day index plus wall-clock fields); `datetime` range limits are
not modelled.
-/

/-! ### Python string primitives (character-list level) -/

/-- Whitespace characters recognised by Python `str.strip` / `str.split`. -/
def isWS (c : Char) : Bool :=
  c = ' ' || c = '\t' || c = '\n' || c = '\r' || c = '\x0b' || c = '\x0c'

/-- Drop leading whitespace. -/
def dropLeadingWS : List Char → List Char
  | [] => []
  | c :: cs => if isWS c then dropLeadingWS cs else c :: cs

/-- Python `str.strip()`: remove leading and trailing whitespace. -/
def pyStrip (l : List Char) : List Char :=
  (dropLeadingWS (dropLeadingWS l).reverse).reverse

/-- Split a character list at every character satisfying `p`, keeping empty
segments, like Python `str.split(sep)` for a single-character separator. -/
def splitOnPred (p : Char → Bool) : List Char → List (List Char)
  | [] => [[]]
  | c :: cs =>
    let r := splitOnPred p cs
    if p c then [] :: r
    else
      match r with
      | [] => [[c]]
      | h :: t => (c :: h) :: t

/-- Python `str.split(sep)` for a one-character separator. -/
def splitOnChar (sep : Char) (l : List Char) : List (List Char) :=
  splitOnPred (fun c => decide (c = sep)) l

/-- Python `str.split()` (no argument): split on whitespace runs,
dropping empty tokens. -/
def pySplitWS (l : List Char) : List (List Char) :=
  (splitOnPred isWS l).filter (fun t => !t.isEmpty)

/-- Python `str.replace(".", "")`: remove every period. -/
def removeDots (l : List Char) : List Char :=
  l.filter (fun c => decide (c ≠ '.'))

/-- Python `str.replace(",", ".")`: turn every comma into a period. -/
def commaToDot (l : List Char) : List Char :=
  l.map (fun c => if c = ',' then '.' else c)

/-- `time_str[:-1]` when `time_str.endswith(".")` (app.py lines 53-54). -/
def stripTrailingDot (l : List Char) : List Char :=
  if l.getLast? = some '.' then l.dropLast else l

/-- `val_str[1:-1]` when the value is surrounded by double quotes
(app.py lines 67-68). -/
def stripQuotes (l : List Char) : List Char :=
  if l.head? = some '\"' ∧ l.getLast? = some '\"' then (l.drop 1).dropLast else l

/-- Numeric value of a digit string (most significant digit first). -/
def digitsVal (l : List Char) : Nat :=
  l.foldl (fun a c => a * 10 + (c.toNat - 48)) 0

/-- All characters are decimal digits. -/
def allDigits (l : List Char) : Bool :=
  l.all Char.isDigit

/-- Python `int(s)` on an already-stripped string: optional sign followed by
one or more decimal digits; anything else raises, modelled as `none`. -/
def parseIntPy (l : List Char) : Option Int :=
  match l with
  | '-' :: rest =>
      if !rest.isEmpty && allDigits rest then some (-(digitsVal rest : Int)) else none
  | '+' :: rest =>
      if !rest.isEmpty && allDigits rest then some ((digitsVal rest : Int)) else none
  | _ =>
      if !l.isEmpty && allDigits l then some ((digitsVal l : Int)) else none

/-- Decimal core of Python `float(s)`: digits with an optional single period
and at least one digit overall (the exponent/inf/nan forms are not used by
the telemetry files and are not modelled). -/
def parseUnsignedFloat (l : List Char) : Option ℚ :=
  match splitOnChar '.' l with
  | [ip] => if !ip.isEmpty && allDigits ip then some ((digitsVal ip : ℚ)) else none
  | [ip, fp] =>
      if (!ip.isEmpty || !fp.isEmpty) && allDigits ip && allDigits fp then
        some ((digitsVal ip : ℚ) + (digitsVal fp : ℚ) / ((10 : ℚ) ^ fp.length))
      else none
  | _ => none

/-- Python `float(s)`: optional sign then the decimal core. -/
def parseFloatPy (l : List Char) : Option ℚ :=
  match l with
  | '-' :: rest => (parseUnsignedFloat rest).map Neg.neg
  | '+' :: rest => parseUnsignedFloat rest
  | _ => parseUnsignedFloat l

/-- Python `datetime.strptime(s, "%H:%M")`: one or two digits each side of a
single colon, hour at most 23, minute at most 59, whole string consumed. -/
def parseTimePy (l : List Char) : Option (Nat × Nat) :=
  match splitOnChar ':' l with
  | [hs, ms] =>
      if !hs.isEmpty && hs.length ≤ 2 && allDigits hs && digitsVal hs ≤ 23 &&
         !ms.isEmpty && ms.length ≤ 2 && allDigits ms && digitsVal ms ≤ 59 then
        some (digitsVal hs, digitsVal ms)
      else none
  | _ => none

/-! ### The time-stamp model -/

/-- A `datetime` instant: an unbounded calendar-day index plus wall-clock
hour, minute and second. -/
structure DateTime where
  day : Int
  hour : Nat
  minute : Nat
  second : Nat
deriving DecidableEq, Repr

/-- Linearisation of a `DateTime` used for the code's timestamp
comparisons (components produced by the pipeline are in range, so this
agrees with `datetime` ordering). -/
def DateTime.key (t : DateTime) : Int :=
  t.day * 86400 + ((t.hour * 3600 + t.minute * 60 + t.second : Nat) : Int)

/-! ### RecordParser: `parse_measurement_file` (app.py lines 26-80) -/

/-- One parsed measurement row: a timestamp and the (possibly absent,
`np.nan`) value of the requested column. -/
structure RawRecord where
  ts : DateTime
  value : Option ℚ
deriving DecidableEq, Repr

/-- `line.split(";")` after `line.strip()` (app.py lines 31-34). -/
def lineParts (l : List Char) : List (List Char) :=
  splitOnChar ';' (pyStrip l)

/-- App.py lines 38-59: split the first field into whitespace tokens; the
first token is the `HH:MM` time (optional trailing period removed, invalid
time skips the line), the second is the day ordinal (periods removed,
integer-parse failure defaulting the day to 1). -/
def parseTimeDay (p0 : List Char) : Option (Nat × Nat × Int) :=
  match pySplitWS (pyStrip p0) with
  | t0 :: t1 :: _ =>
      match parseTimePy (stripTrailingDot (pyStrip t0)) with
      | some hm => some (hm.1, hm.2, (parseIntPy (removeDots (pyStrip t1))).getD 1)
      | none => none
  | _ => none

/-- App.py lines 63-73: the measurement value comes from the second
`;`-field: strip, drop surrounding quotes, commas to periods, `float`;
a missing, empty or unparseable field gives `np.nan` (`none`). -/
def parseValue : List (List Char) → Option ℚ
  | [] => none
  | v0 :: _ =>
    let vs := pyStrip v0
    if vs.isEmpty then none
    else
      let vs2 := commaToDot (stripQuotes vs)
      if vs2.isEmpty then none else parseFloatPy vs2

/-- One iteration of the parsing loop (app.py lines 30-75): a blank line or
a first field without two tokens or with an invalid time is skipped; an
accepted line yields the record at
`base_date + (day_num - 1) days` combined with the parsed time. -/
def parseLine (base : Int) (l : List Char) : Option RawRecord :=
  if pyStrip l = [] then none
  else
    match lineParts l with
    | [] => none
    | p0 :: rest =>
      (parseTimeDay p0).map
        (fun hmd => ⟨⟨base + (hmd.2.2 - 1), hmd.1, hmd.2.1, 0⟩, parseValue rest⟩)

/-- `parse_measurement_file` (app.py lines 26-80).  `content = none` models
a file that cannot be opened: the surrounding `try`/`except` prints the
error and the function returns the empty frame.  The `measurement_col`
argument only names the output column and is dropped. -/
def parse_measurement_file (content : Option (List String)) (base : Int) :
    List RawRecord :=
  match content with
  | none => []
  | some lines => lines.filterMap (fun s => parseLine base s.data)

/-- The per-line skip condition of the parsing loop (app.py lines 32-59): a
line is blank after stripping, or its first `;`-field lacks two whitespace
tokens or has an invalid time token. -/
def lineBlankOrMalformed (l : List Char) : Bool :=
  decide (pyStrip l = []) ||
  (match lineParts l with
   | [] => true
   | p0 :: _ => (parseTimeDay p0).isNone)

/-! ### Installation constants (app.py lines 15-20) -/

def LICZBA_MODULI : ℚ := 27
def MODUL_MOC_W : ℚ := 190
def INSTALLED_CAPACITY_KWP : ℚ := (27 * 190) / 1000
def MODULE_EFFICIENCY : ℚ := 149 / 1000
def PERFORMANCE_RATIO : ℚ := 80 / 100
def MODULE_AREA : ℚ := 16 / 10

/-! ### MeasuredSeriesAssembler: `SunnyPortalDataFetcher.fetch_data`
(app.py lines 86-130) -/

/-- A row of the merged frame returned by `fetch_data`: the three channel
values joined on the timestamp plus the two derived columns. -/
structure MergedRecord where
  ts : DateTime
  power : Option ℚ
  grid_voltage : Option ℚ
  grid_current : Option ℚ
  production_kWh : Option ℚ
  grid_power_calculated : Option ℚ
deriving DecidableEq, Repr

/-- `pd.merge(a, b, on="timestamp", how="inner")` (app.py line 117):
every pair of rows with equal timestamps, in left-then-right order. -/
def join2 (xs ys : List RawRecord) : List (RawRecord × RawRecord) :=
  xs.flatMap (fun x => (ys.filter (fun y => decide (y.ts = x.ts))).map (fun y => (x, y)))

/-- Second inner merge (app.py line 118). -/
def join3 (xys : List (RawRecord × RawRecord)) (zs : List RawRecord) :
    List (RawRecord × RawRecord × RawRecord) :=
  xys.flatMap (fun xy =>
    (zs.filter (fun z => decide (z.ts = xy.1.ts))).map (fun z => (xy.1, xy.2, z)))

/-- Window restriction (app.py lines 121-124): `start_date` carries time
00:00:00 and `end_date` 23:59:59 (set in the `results` route, lines
310-311). -/
def inWindow (sd ed : Int) (t : DateTime) : Bool :=
  decide ((DateTime.mk sd 0 0 0).key ≤ t.key) &&
  decide (t.key ≤ (DateTime.mk ed 23 59 59).key)

/-- Build one merged row with the derived columns (app.py lines 127-128):
`production_kWh = power * 0.25 / 1000` and
`grid_power_calculated = grid_voltage * grid_current`; `np.nan` operands
propagate to `np.nan` (`none`). -/
def mkMerged (r : RawRecord × RawRecord × RawRecord) : MergedRecord where
  ts := r.1.ts
  power := r.1.value
  grid_voltage := r.2.1.value
  grid_current := r.2.2.value
  production_kWh := r.1.value.map (fun p => p * (1/4) / 1000)
  grid_power_calculated :=
    match r.2.1.value, r.2.2.value with
    | some v, some c => some (v * c)
    | _, _ => none

/-- `SunnyPortalDataFetcher.fetch_data` (app.py lines 91-130) from the three
file contents onward.  `none` as a result models the column-less
`pd.DataFrame()` returned when any channel frame is empty (line 114);
`some rows` models the merged frame, whose row list may itself be empty
after the window filter. -/
def fetch_data (filePower fileVoltage fileCurrent : Option (List String))
    (startDay endDay : Int) : Option (List MergedRecord) :=
  if parse_measurement_file filePower startDay = [] ∨
     parse_measurement_file fileVoltage startDay = [] ∨
     parse_measurement_file fileCurrent startDay = [] then none
  else
    some ((((join3 (join2 (parse_measurement_file filePower startDay)
        (parse_measurement_file fileVoltage startDay))
        (parse_measurement_file fileCurrent startDay)).filter
      (fun r => inWindow startDay endDay r.1.ts)).map mkMerged))

/-! ### The NASA fetch and the production simulation
(app.py lines 136-197) -/

/-- The query parameters of the NASA POWER request (app.py lines 142-150):
a single irradiance parameter is requested. -/
def nasaRequestParams (latitude longitude start_str end_str : String) :
    List (String × String) :=
  [("parameters", "ALLSKY_SFC_SW_DWN"), ("community", "RE"),
   ("longitude", longitude), ("latitude", latitude),
   ("start", start_str), ("end", end_str), ("format", "JSON")]

/-- The endpoint of the irradiance fetch (app.py line 141). -/
def nasaBaseUrl : String := "https://power.larc.nasa.gov/api/temporal/hourly/point"

/-- One row of the frame built by `fetch_nasa_data` (app.py line 156):
a timestamp and one irradiance value. -/
structure NasaRow where
  ts : DateTime
  irradiance : ℚ
deriving DecidableEq, Repr

/-- One row after `simulate_pv_production` added its two columns. -/
structure SimRow where
  ts : DateTime
  irradiance : ℚ
  production_per_module : ℚ
  total_production : ℚ
deriving DecidableEq, Repr

/-- `simulate_pv_production` (app.py lines 171-197): negative irradiance is
clamped to 0 in place; then, per row,
`production_per_module = irradiance * MODULE_AREA * MODULE_EFFICIENCY *
PERFORMANCE_RATIO * 1 / 1000` and `total_production = production_per_module *
LICZBA_MODULI`.  No solar-position call and no plane-of-array transposition
occur anywhere in the function. -/
def simulate_pv_production (rows : List NasaRow) : List SimRow :=
  rows.map (fun r =>
    let irr := if r.irradiance < 0 then 0 else r.irradiance
    let ppm := irr * MODULE_AREA * MODULE_EFFICIENCY * PERFORMANCE_RATIO * 1 / 1000
    ⟨r.ts, irr, ppm, ppm * LICZBA_MODULI⟩)

/-! ### EconomicAnalyzer (app.py lines 203-228) and the `results` route
economics chain (lines 331-341) -/

/-- Pandas column sum: `np.nan` entries are skipped. -/
def sumSkipNA (l : List (Option ℚ)) : ℚ :=
  (l.filterMap id).sum

/-- `EconomicAnalyzer.calculate_economics` (app.py lines 210-228): returns
the summed self-consumption savings and the summed net feed-in result. -/
def calculate_economics (rows : List MergedRecord)
    (cost_peak feed_in_rate grid_usage_rate : ℚ) : ℚ × ℚ :=
  (sumSkipNA (rows.map (fun r => r.production_kWh.map (fun p => p * cost_peak))),
   sumSkipNA (rows.map (fun r =>
     r.production_kWh.map (fun p => p * feed_in_rate - p * grid_usage_rate))))

/-- `EconomicAnalyzer.__init__` (app.py lines 204-208): it evaluates
`self.data["timestamp"]` unconditionally; on the column-less empty frame
(`none`) this raises `KeyError`, modelled as an `Except.error`. -/
def economicAnalyzerInit (sunny : Option (List MergedRecord)) :
    Except String (List MergedRecord) :=
  match sunny with
  | none => Except.error "KeyError: timestamp"
  | some rows => Except.ok rows

/-- The economics portion of the `results` route (app.py lines 331-341):
construct the analyzer, then compute totals only when the frame is
non-empty, defaulting both totals to 0. -/
def resultsEconomics (sunny : Option (List MergedRecord)) :
    Except String (ℚ × ℚ) :=
  match economicAnalyzerInit sunny with
  | Except.error e => Except.error e
  | Except.ok rows =>
      if rows = [] then Except.ok (0, 0)
      else Except.ok (calculate_economics rows (80/100) (50/100) (40/100))

/-! ### Calendar dates, the file-naming convention and the I/O trace of the
`results` route (app.py lines 100-106, 305-341) -/

/-- A calendar date as entered in the form. -/
structure Date where
  year : Nat
  month : Nat
  day : Nat
deriving DecidableEq, Repr

/-- Rata-die style day count (days-from-civil), valid for positive years;
used to express the length of the requested window in calendar days. -/
def Date.toDays (dt : Date) : Nat :=
  let y := if dt.month ≤ 2 then dt.year - 1 else dt.year
  let era := y / 400
  let yoe := y - era * 400
  let doy := (153 * ((dt.month + 9) % 12) + 2) / 5 + dt.day - 1
  let doe := yoe * 365 + yoe / 4 - yoe / 100 + doy
  era * 146097 + doe

/-- Inclusive span of a window in calendar days. -/
def spanDays (s e : Date) : Int :=
  (e.toDays : Int) - (s.toDays : Int) + 1

/-- Decimal digits of a natural number (fuel-bounded so it evaluates by
kernel reduction). -/
def natDigitsAux : Nat → Nat → List Char
  | 0, _ => []
  | fuel + 1, n => if n = 0 then [] else natDigitsAux fuel (n / 10) ++ [Char.ofNat (48 + n % 10)]

/-- Decimal rendering of a natural number. -/
def natToStr (n : Nat) : String :=
  if n = 0 then "0" else ⟨natDigitsAux (n + 1) n⟩

/-- Two-digit zero-padded rendering, as `strftime("%d")` / `("%m")`. -/
def pad2 (n : Nat) : String :=
  if n < 10 then "0" ++ natToStr n else natToStr n

/-- `strftime("%d.%m.%Y")` (app.py lines 100-101). -/
def Date.fmtDMY (d : Date) : String :=
  pad2 d.day ++ "." ++ pad2 d.month ++ "." ++ natToStr d.year

/-- The three telemetry paths opened by `fetch_data` (app.py lines 104-106). -/
def fetch_data_paths (s e : Date) : List String :=
  ["data/" ++ s.fmtDMY ++ "-" ++ e.fmtDMY ++ "_3.csv",
   "data/" ++ s.fmtDMY ++ "-" ++ e.fmtDMY ++ "_4.csv",
   "data/" ++ s.fmtDMY ++ "-" ++ e.fmtDMY ++ "_5.csv"]

/-- An externally visible input/output action of the pipeline. -/
inductive PipelineAction where
  | openFile (path : String)
  | httpGet (url : String)
deriving DecidableEq, Repr

/-- The I/O actions performed by the `results` route once both date strings
parse (app.py lines 316-320): it unconditionally calls
`fetcher.fetch_data` (opening the three channel files) and then
`fetch_nasa_data` (the irradiance request).  No window-length check occurs
anywhere between date parsing and these calls. -/
def results_actions (s e : Date) : List PipelineAction :=
  (fetch_data_paths s e).map PipelineAction.openFile ++
    [PipelineAction.httpGet nasaBaseUrl]

/-! ### Reconciler (spec §4.4) — modelled from the spec -/

/-- Modelled from the spec: the repository source `app.py` contains no
Reconciler / `calibrate()` implementation; spec §4.4 describes it.  The
HourBucket key of a timestamp: `(calendar_date, hour_of_day)`. -/
def hourBucket (t : DateTime) : Int × Nat :=
  (t.day, t.hour)

/-- Modelled from the spec: aggregate a series to its HourBucket sum
(spec §4.4 step 1). -/
def bucketSum : List (DateTime × ℚ) → Int × Nat → ℚ
  | [], _ => 0
  | p :: rest, b => (if hourBucket p.1 = b then p.2 else 0) + bucketSum rest b

/-- Modelled from the spec: a bucket is present in a series when the series
has at least one sample in it. -/
def bucketPresent (s : List (DateTime × ℚ)) (b : Int × Nat) : Bool :=
  s.any (fun p => decide (hourBucket p.1 = b))

/-- Modelled from the spec (§4.4 step 2): `scale = sp_sum / pv_sum` on the
inner join of the two bucket tables; a bucket absent from the join, or with
`pv_sum = 0`, maps to scale 0. -/
def scaleFactor (measured modeled : List (DateTime × ℚ)) (b : Int × Nat) : ℚ :=
  if bucketPresent measured b && bucketPresent modeled b then
    if bucketSum modeled b = 0 then 0
    else bucketSum measured b / bucketSum modeled b
  else 0

/-- Modelled from the spec (§4.4 step 3): apply the bucket's scale factor to
every sub-hour modeled sample falling in that bucket. -/
def calibrate (measured modeled : List (DateTime × ℚ)) : List (DateTime × ℚ) :=
  modeled.map (fun p => (p.1, scaleFactor measured modeled (hourBucket p.1) * p.2))

example : parseLine 0 "08:15. 1.;\"123,4\"".data =
    some ⟨⟨0, 8, 15, 0⟩, some (617/5)⟩ := by with_unfolding_all decide

example : parseLine 10 "08:00 2;".data = some ⟨⟨11, 8, 0, 0⟩, none⟩ := by
  with_unfolding_all decide

example : parseLine 0 "25:00 1;3".data = none := by with_unfolding_all decide

example : parseLine 0 "08:00 xx;3".data = some ⟨⟨0, 8, 0, 0⟩, some 3⟩ := by
  with_unfolding_all decide

example : spanDays ⟨2025, 1, 6⟩ ⟨2025, 1, 12⟩ = 7 := by decide

example : spanDays ⟨2025, 2, 26⟩ ⟨2025, 3, 4⟩ = 7 := by decide

example : (fetch_data_paths ⟨2025, 1, 6⟩ ⟨2025, 1, 12⟩).head? =
    some "data/06.01.2025-12.01.2025_3.csv" := by decide

/-- Scaling every sample by a per-bucket factor scales the bucket sum by
that bucket's factor. -/
theorem bucketSum_map_scale (f : Int × Nat → ℚ) (l : List (DateTime × ℚ))
    (b : Int × Nat) :
    bucketSum (l.map (fun p => (p.1, f (hourBucket p.1) * p.2))) b =
      f b * bucketSum l b := by
  induction l with
  | nil => simp [bucketSum]
  | cons p rest ih =>
      by_cases hb : hourBucket p.1 = b
      · simp [bucketSum, hb, ih, mul_add]
      · simp [bucketSum, hb, ih]

/-- The calibrated bucket sum is the scale factor times the modeled bucket
sum. -/
theorem bucketSum_calibrate (measured modeled : List (DateTime × ℚ))
    (b : Int × Nat) :
    bucketSum (calibrate measured modeled) b =
      scaleFactor measured modeled b * bucketSum modeled b :=
  bucketSum_map_scale (scaleFactor measured modeled) modeled b

/-- Claim C1, counterexample: a bucket present in both input series whose
modeled sum is 0 (spec §4.4 step 2 defines its scale as 0) gets calibrated
sum 0, which differs from the measured sum — so the per-bucket round-trip
does not hold for every bucket present in both inputs. -/
theorem calibrate_zero_modeled_bucket_counterexample :
    bucketPresent [((⟨0, 12, 0, 0⟩ : DateTime), (5 : ℚ))] (0, 12) = true ∧
    bucketPresent [((⟨0, 12, 0, 0⟩ : DateTime), (0 : ℚ))] (0, 12) = true ∧
    bucketSum (calibrate [((⟨0, 12, 0, 0⟩ : DateTime), (5 : ℚ))]
        [((⟨0, 12, 0, 0⟩ : DateTime), (0 : ℚ))]) (0, 12) ≠
      bucketSum [((⟨0, 12, 0, 0⟩ : DateTime), (5 : ℚ))] (0, 12) :=
  ⟨by decide, by decide, by with_unfolding_all decide⟩

/-- Claim C1 (amended): for every HourBucket present in both input series
whose modeled sum is non-zero, the per-bucket sum of the calibrated modeled
series returned by `calibrate` equals the measured series' sum for that
bucket (exactly, in the rational model). -/
theorem calibrate_bucket_sums_match (measured modeled : List (DateTime × ℚ))
    (b : Int × Nat)
    (hm : bucketPresent measured b = true)
    (hmd : bucketPresent modeled b = true)
    (hpv : bucketSum modeled b ≠ 0) :
    bucketSum (calibrate measured modeled) b = bucketSum measured b := by
  rw [bucketSum_calibrate]
  unfold scaleFactor
  rw [hm, hmd]
  simp only [Bool.and_self, if_true]
  rw [if_neg hpv]
  exact div_mul_cancel₀ _ hpv

/-- Claim C1, witness: a concrete hour with measured sum 7 and two modeled
sub-hour samples summing to 10 calibrates to bucket sum 7. -/
theorem calibrate_bucket_sums_match_witness :
    bucketSum (calibrate [((⟨0, 12, 0, 0⟩ : DateTime), (7 : ℚ))]
        [((⟨0, 12, 0, 0⟩ : DateTime), (6 : ℚ)),
         ((⟨0, 12, 30, 0⟩ : DateTime), (4 : ℚ))]) (0, 12) =
      bucketSum [((⟨0, 12, 0, 0⟩ : DateTime), (7 : ℚ))] (0, 12) :=
  calibrate_bucket_sums_match _ _ _ (by decide) (by decide)
    (by with_unfolding_all decide)

/-- Claim C2, counterexample: a 6-day window is not rejected — the
`results` route still opens the first telemetry file and issues the
irradiance request. -/
theorem no_window_length_validation_counterexample :
    spanDays ⟨2025, 1, 6⟩ ⟨2025, 1, 11⟩ = 6 ∧
    PipelineAction.openFile "data/06.01.2025-11.01.2025_3.csv" ∈
      results_actions ⟨2025, 1, 6⟩ ⟨2025, 1, 11⟩ ∧
    PipelineAction.httpGet nasaBaseUrl ∈
      results_actions ⟨2025, 1, 6⟩ ⟨2025, 1, 11⟩ := by
  refine ⟨by decide, by decide, by decide⟩

/-- Claim C2 (amended): the pipeline performs no window-length validation:
for every pair of input dates, even when the inclusive span differs from 7
calendar days, the `results` route proceeds to open the three telemetry
channel files and to issue the irradiance fetch. -/
theorem results_actions_regardless_of_span (s e : Date)
    (_hspan : spanDays s e ≠ 7) :
    (∃ p, PipelineAction.openFile p ∈ results_actions s e) ∧
      PipelineAction.httpGet nasaBaseUrl ∈ results_actions s e := by
  refine ⟨⟨"data/" ++ s.fmtDMY ++ "-" ++ e.fmtDMY ++ "_3.csv", ?_⟩, ?_⟩ <;>
    simp [results_actions, fetch_data_paths]

/-- Claim C2, witness: the amended statement applied to a concrete 8-day
window. -/
theorem results_actions_regardless_of_span_witness :
    (∃ p, PipelineAction.openFile p ∈
        results_actions ⟨2025, 2, 1⟩ ⟨2025, 2, 8⟩) ∧
      PipelineAction.httpGet nasaBaseUrl ∈
        results_actions ⟨2025, 2, 1⟩ ⟨2025, 2, 8⟩ :=
  results_actions_regardless_of_span ⟨2025, 2, 1⟩ ⟨2025, 2, 8⟩ (by decide)

/-- Claim C3, code-bug evaluation: when the measured-data stage yields an
empty result — absent channel files (`none` contents) or files whose lines
all fail to parse — `fetch_data` returns the column-less empty frame, and
the downstream `EconomicAnalyzer.__init__` then raises `KeyError` on
`self.data["timestamp"]` instead of producing the "no data" rendering that
app.py lines 337 and 360-361 anticipate. -/
theorem missing_measured_data_raises_keyerror :
    fetch_data none none none 0 6 = none ∧
    fetch_data (some ["garbage"]) (some ["garbage"]) (some ["garbage"]) 0 6 =
      none ∧
    resultsEconomics (fetch_data none none none 0 6) =
      Except.error "KeyError: timestamp" :=
  ⟨rfl, by with_unfolding_all decide, rfl⟩

/-- Claim C4, counterexample: the irradiance request names exactly one
irradiance component (no DNI, no DHI), so no plane-of-array irradiance can
be formed from three components; and at a concrete sample the per-timestamp
energy is computed directly from that single value and the module
constants, with no solar zenith/azimuth entering anywhere:
500 · 1.6 · 0.149 · 0.80 · 1 / 1000 = 298/3125 kWh per module. -/
theorem single_irradiance_component_counterexample :
    ((nasaRequestParams "51.1087" "17.0597" "20250106" "20250112").filter
        (fun kv => decide (kv.1 = "parameters"))).map Prod.snd =
      ["ALLSKY_SFC_SW_DWN"] ∧
    simulate_pv_production [⟨⟨0, 12, 0, 0⟩, 500⟩] =
      [⟨⟨0, 12, 0, 0⟩, 500, 298/3125, 8046/3125⟩] := by
  refine ⟨by decide, ?_⟩
  simp only [simulate_pv_production, List.map_cons, List.map_nil]
  norm_num [ MODULE_AREA, MODULE_EFFICIENCY, PERFORMANCE_RATIO, LICZBA_MODULI,
    SimRow.mk.injEq]

/-- Claim C4 (amended): for every timestamp in the irradiance input, the
simulator computes the per-sample energy directly from the single fetched
global-irradiance value, clamped at 0, times module area, efficiency,
performance ratio, one hour, 1/1000 and the module count; no solar-position
function is consulted and no plane-of-array transposition is applied. -/
theorem simulate_energy_from_single_ghi (rows : List NasaRow) :
    (simulate_pv_production rows).map SimRow.total_production =
      rows.map (fun r => max 0 r.irradiance * MODULE_AREA * MODULE_EFFICIENCY *
        PERFORMANCE_RATIO * 1 / 1000 * LICZBA_MODULI) := by
  unfold simulate_pv_production
  rw [List.map_map]
  apply List.map_congr_left
  intro r _
  have hclamp : (if r.irradiance < 0 then 0 else r.irradiance) =
      max 0 r.irradiance := by
    rcases lt_or_le r.irradiance 0 with h | h
    · rw [if_pos h, max_eq_left h.le]
    · rw [if_neg (not_lt.mpr h), max_eq_right h]
  simp only [Function.comp_apply, hclamp]

/-- Evaluating `parseTimeDay` when the whitespace-token split and the time
parse are known. -/
theorem parseTimeDay_eq (p0 t0 t1 : List Char) (ts : List (List Char))
    (htok : pySplitWS (pyStrip p0) = t0 :: t1 :: ts)
    (h m : Nat)
    (htime : parseTimePy (stripTrailingDot (pyStrip t0)) = some (h, m)) :
    parseTimeDay p0 =
      some (h, m, (parseIntPy (removeDots (pyStrip t1))).getD 1) := by
  unfold parseTimeDay
  rw [htok]
  simp only [htime]

/-- Evaluating `parseLine` when the `;`-split and the first-field parse are
known. -/
theorem parseLine_some_eq (base : Int) (l p0 : List Char)
    (rest : List (List Char)) (hsplit : lineParts l = p0 :: rest)
    (h m : Nat) (d : Int) (htd : parseTimeDay p0 = some (h, m, d)) :
    parseLine base l = some ⟨⟨base + (d - 1), h, m, 0⟩, parseValue rest⟩ := by
  have hne : pyStrip l ≠ [] := by
    intro hE
    have h1 : lineParts l = [[]] := by rw [lineParts, hE]; rfl
    rw [h1] at hsplit
    injection hsplit with hp0 hrest
    rw [← hp0] at htd
    have h2 : parseTimeDay ([] : List Char) = none := rfl
    rw [h2] at htd
    exact Option.noConfusion htd
  unfold parseLine
  rw [if_neg hne, hsplit]
  simp only [htd]
  rfl

/-- Claim C5: for every parsed line with a valid time token and an integer
day token, the record's date is `window_start_date + (day_token - 1)` days
(the offset policy) and its time-of-day is the parsed `HH:MM` wall-clock
time. -/
theorem parse_offset_policy (base : Int) (l p0 : List Char)
    (rest : List (List Char)) (t0 t1 : List Char) (ts : List (List Char))
    (hsplit : lineParts l = p0 :: rest)
    (htok : pySplitWS (pyStrip p0) = t0 :: t1 :: ts)
    (h m : Nat)
    (htime : parseTimePy (stripTrailingDot (pyStrip t0)) = some (h, m))
    (d : Int) (hday : parseIntPy (removeDots (pyStrip t1)) = some d) :
    ∃ v, parseLine base l = some ⟨⟨base + (d - 1), h, m, 0⟩, v⟩ := by
  refine ⟨parseValue rest, ?_⟩
  have htd := parseTimeDay_eq p0 t0 t1 ts htok h m htime
  rw [hday] at htd
  simp only [Option.getD_some] at htd
  exact parseLine_some_eq base l p0 rest hsplit h m d htd

/-- Claim C5, witness: on the line `13:45. 3.;"2,5"` with window start at
day index 100, the record lands on day 102 (= 100 + (3 - 1)) at 13:45. -/
theorem parse_offset_policy_witness :
    ∃ v, parseLine 100 "13:45. 3.;\"2,5\"".data =
      some ⟨⟨102, 13, 45, 0⟩, v⟩ :=
  parse_offset_policy 100 "13:45. 3.;\"2,5\"".data "13:45. 3.".data
    ["\"2,5\"".data] "13:45.".data "3.".data [] (by decide) (by decide)
    13 45 (by decide) 3 (by decide)

/-- Claim C10, counterexample: the token `2.` is not parseable as an
integer (Python `int("2.")` raises), yet the emitted record is NOT
timestamped on the window's start date: the parser first strips periods, so
the day resolves to 2 and the record lands on the second window day. -/
theorem day_token_not_integer_counterexample :
    parseIntPy (pyStrip "2.".data) = none ∧
    parseLine 0 "08:00. 2.;5".data = some ⟨⟨1, 8, 0, 0⟩, some 5⟩ :=
  ⟨by decide, by with_unfolding_all decide⟩

/-- Claim C10 (amended): a line with a valid time token whose second token
still fails integer parsing after all period characters are removed is not
skipped: the day number defaults to 1 and the record is timestamped on the
window's start date. -/
theorem day_token_default_after_dot_strip (base : Int) (l p0 : List Char)
    (rest : List (List Char)) (t0 t1 : List Char) (ts : List (List Char))
    (hsplit : lineParts l = p0 :: rest)
    (htok : pySplitWS (pyStrip p0) = t0 :: t1 :: ts)
    (h m : Nat)
    (htime : parseTimePy (stripTrailingDot (pyStrip t0)) = some (h, m))
    (hday : parseIntPy (removeDots (pyStrip t1)) = none) :
    ∃ v, parseLine base l = some ⟨⟨base, h, m, 0⟩, v⟩ := by
  refine ⟨parseValue rest, ?_⟩
  have htd := parseTimeDay_eq p0 t0 t1 ts htok h m htime
  rw [hday] at htd
  simp only [Option.getD_none] at htd
  have hres := parseLine_some_eq base l p0 rest hsplit h m 1 htd
  simpa using hres

/-- Claim C10, witness: the line `08:15 abc;7` has a day token that is not
an integer even after period removal; its record lands on the window start
day. -/
theorem day_token_default_after_dot_strip_witness :
    ∃ v, parseLine 0 "08:15 abc;7".data = some ⟨⟨0, 8, 15, 0⟩, v⟩ :=
  day_token_default_after_dot_strip 0 "08:15 abc;7".data "08:15 abc".data
    ["7".data] "08:15".data "abc".data [] (by decide) (by decide)
    8 15 (by decide) (by decide)

/-- Claim C9: for every parsed line, the value comes from the second
`;`-delimited field with surrounding quotes stripped and commas turned into
periods, parsed as a float; a missing, empty or unparseable field makes the
emitted record's value absent (`none`, never zero and never an error) while
the record itself is still emitted. -/
theorem value_token_policy (base : Int) (l p0 : List Char)
    (rest : List (List Char)) (hsplit : lineParts l = p0 :: rest)
    (h m : Nat) (d : Int) (htd : parseTimeDay p0 = some (h, m, d)) :
    ∃ rec, parseLine base l = some rec ∧
      (rest = [] → rec.value = none) ∧
      ∀ v0 vrest, rest = v0 :: vrest →
        rec.value = (if pyStrip v0 = [] then none
                     else parseFloatPy (commaToDot (stripQuotes (pyStrip v0)))) := by
  refine ⟨⟨⟨base + (d - 1), h, m, 0⟩, parseValue rest⟩,
    parseLine_some_eq base l p0 rest hsplit h m d htd, ?_, ?_⟩
  · rintro rfl
    rfl
  · rintro v0 vrest rfl
    show parseValue (v0 :: vrest) = _
    simp only [parseValue]
    by_cases hv : pyStrip v0 = []
    · simp [hv]
    · by_cases hv2 : commaToDot (stripQuotes (pyStrip v0)) = []
      · have hnil : parseFloatPy ([] : List Char) = none := rfl
        simp [hv, hv2, hnil]
      · simp [hv, hv2]

/-- Claim C9, witness: on the line `07:30 2;abc` the record is emitted and
its value is absent because `abc` is unparseable as a float. -/
theorem value_token_policy_witness :
    ∃ rec, parseLine 0 "07:30 2;abc".data = some rec ∧
      (["abc".data] = ([] : List (List Char)) → rec.value = none) ∧
      ∀ v0 vrest, ["abc".data] = v0 :: vrest →
        rec.value = (if pyStrip v0 = [] then none
                     else parseFloatPy (commaToDot (stripQuotes (pyStrip v0)))) :=
  value_token_policy 0 "07:30 2;abc".data "07:30 2".data ["abc".data]
    (by decide) 7 30 2 (by decide)

/-- A blank or malformed line is skipped by the parser. -/
theorem parseLine_eq_none_of_blankOrMalformed (base : Int) (l : List Char)
    (hbad : lineBlankOrMalformed l = true) : parseLine base l = none := by
  unfold lineBlankOrMalformed at hbad
  unfold parseLine
  by_cases hE : pyStrip l = []
  · rw [if_pos hE]
  · rw [if_neg hE]
    rw [Bool.or_eq_true, decide_eq_true_eq] at hbad
    rcases hbad with hbad | hbad
    · exact absurd hbad hE
    · cases hlp : lineParts l with
      | nil => simp only [hlp]
      | cons p0 r =>
        rw [hlp] at hbad
        simp only [Option.isNone_iff_eq_none] at hbad
        simp only [hlp, hbad, Option.map_none']

/-- Claim C8: `parse_measurement_file` never propagates an exception: an
unopenable file (`none`) yields the empty series; a file whose lines are
all blank or malformed yields the empty series; and parsing the same file
contents twice yields identical series (the parser is a pure function of
the contents). -/
theorem parser_total_and_deterministic (content : Option (List String))
    (base : Int) :
    parse_measurement_file none base = [] ∧
    ((∀ s ∈ content.getD [], lineBlankOrMalformed s.data = true) →
      parse_measurement_file content base = []) ∧
    parse_measurement_file content base = parse_measurement_file content base := by
  refine ⟨rfl, ?_, rfl⟩
  intro hall
  cases content with
  | none => rfl
  | some lines =>
    simp only [parse_measurement_file]
    rw [List.filterMap_eq_nil_iff]
    intro s hs
    exact parseLine_eq_none_of_blankOrMalformed base s.data (hall s hs)

/-- Claim C8, witness: a file of blank and malformed lines (empty,
whitespace, a single token, an out-of-range time) parses to the empty
series. -/
theorem parser_total_and_deterministic_witness :
    parse_measurement_file (some ["", "   ", "garbage", "99:99 1;5"]) 0 = [] :=
  (parser_total_and_deterministic (some ["", "   ", "garbage", "99:99 1;5"])
      0).2.1 (by decide)

/-- Claim C6: for every window, every timestamp of the assembled measured
series lies in the intersection (inner join on exact timestamp equality) of
the three channel series' timestamp sets and within
`[window_start, window_end]` inclusive; and if any channel series is empty
the assembled result is the empty frame (`none`). -/
theorem assemble_inner_join_subset (fp fv fc : Option (List String))
    (sd ed : Int) :
    (∀ rows, fetch_data fp fv fc sd ed = some rows → ∀ r ∈ rows,
      (r.ts ∈ (parse_measurement_file fp sd).map RawRecord.ts ∧
       r.ts ∈ (parse_measurement_file fv sd).map RawRecord.ts ∧
       r.ts ∈ (parse_measurement_file fc sd).map RawRecord.ts) ∧
      (DateTime.mk sd 0 0 0).key ≤ r.ts.key ∧
      r.ts.key ≤ (DateTime.mk ed 23 59 59).key) ∧
    (parse_measurement_file fp sd = [] ∨ parse_measurement_file fv sd = [] ∨
      parse_measurement_file fc sd = [] → fetch_data fp fv fc sd ed = none) := by
  constructor
  · intro rows hrows r hr
    unfold fetch_data at hrows
    by_cases hemp : parse_measurement_file fp sd = [] ∨
        parse_measurement_file fv sd = [] ∨ parse_measurement_file fc sd = []
    · rw [if_pos hemp] at hrows
      exact absurd hrows (by simp)
    · rw [if_neg hemp] at hrows
      injection hrows with hrows
      rw [← hrows] at hr
      rcases List.mem_map.mp hr with ⟨x, hxmem, hxeq⟩
      rcases List.mem_filter.mp hxmem with ⟨hxj, hxw⟩
      rcases List.mem_flatMap.mp hxj with ⟨xy, hxy, hxz⟩
      rcases List.mem_map.mp hxz with ⟨z, hzmem, hzeq⟩
      rcases List.mem_filter.mp hzmem with ⟨hz, hzts⟩
      rcases List.mem_flatMap.mp hxy with ⟨a, ha, hay⟩
      rcases List.mem_map.mp hay with ⟨y, hymem, hyeq⟩
      rcases List.mem_filter.mp hymem with ⟨hy, hyts⟩
      subst hxeq
      subst hzeq
      subst hyeq
      have hyts' : y.ts = a.ts := of_decide_eq_true hyts
      have hzts' : z.ts = a.ts := of_decide_eq_true hzts
      refine ⟨⟨?_, ?_, ?_⟩, ?_⟩
      · exact List.mem_map.mpr ⟨a, ha, rfl⟩
      · exact List.mem_map.mpr ⟨y, hy, by simp [mkMerged, hyts']⟩
      · exact List.mem_map.mpr ⟨z, hz, by simp [mkMerged, hzts']⟩
      · unfold inWindow at hxw
        rw [Bool.and_eq_true, decide_eq_true_eq, decide_eq_true_eq] at hxw
        exact hxw
  · intro hemp
    unfold fetch_data
    rw [if_pos hemp]

/-- Claim C6, witness: three one-line channel files sharing the timestamp
day 2, 10:15 assemble to a single row whose timestamp lies in all three
channel series and inside the 7-day window of day indices 0..6. -/
theorem assemble_inner_join_subset_witness :
    (((⟨1, 10, 15, 0⟩ : DateTime) ∈
        (parse_measurement_file (some ["10:15. 2;100"]) 0).map RawRecord.ts ∧
      (⟨1, 10, 15, 0⟩ : DateTime) ∈
        (parse_measurement_file (some ["10:15. 2;2"]) 0).map RawRecord.ts ∧
      (⟨1, 10, 15, 0⟩ : DateTime) ∈
        (parse_measurement_file (some ["10:15. 2;3"]) 0).map RawRecord.ts) ∧
      (DateTime.mk 0 0 0 0).key ≤ (DateTime.mk 1 10 15 0).key ∧
      (DateTime.mk 1 10 15 0).key ≤ (DateTime.mk 6 23 59 59).key) :=
  (assemble_inner_join_subset (some ["10:15. 2;100"]) (some ["10:15. 2;2"])
      (some ["10:15. 2;3"]) 0 6).1
    [⟨⟨1, 10, 15, 0⟩, some 100, some 2, some 3, some (100 * (1/4) / 1000),
      some (2 * 3)⟩]
    (by with_unfolding_all decide)
    ⟨⟨1, 10, 15, 0⟩, some 100, some 2, some 3, some (100 * (1/4) / 1000),
      some (2 * 3)⟩
    (List.mem_singleton.mpr rfl)

/-- Claim C7: derived energy is never negative: for every assembled
measured record with non-negative power, `production_kWh` is non-negative;
and for every modeled record (irradiance clamped at 0 before use), both
per-module and total production are non-negative. -/
theorem energy_kwh_nonneg :
    (∀ fp fv fc sd ed rows, fetch_data fp fv fc sd ed = some rows →
      ∀ r ∈ rows, ∀ p, r.power = some p → 0 ≤ p →
        ∀ q, r.production_kWh = some q → 0 ≤ q) ∧
    (∀ nrows, ∀ s ∈ simulate_pv_production nrows,
      0 ≤ s.production_per_module ∧ 0 ≤ s.total_production) := by
  have hA : (0 : ℚ) ≤ MODULE_AREA := by norm_num [ MODULE_AREA]
  have hE : (0 : ℚ) ≤ MODULE_EFFICIENCY := by norm_num [ MODULE_EFFICIENCY]
  have hP : (0 : ℚ) ≤ PERFORMANCE_RATIO := by norm_num [ PERFORMANCE_RATIO]
  have hN : (0 : ℚ) ≤ LICZBA_MODULI := by norm_num [ LICZBA_MODULI]
  constructor
  · intro fp fv fc sd ed rows hrows r hr p hp hp0 q hq
    unfold fetch_data at hrows
    by_cases hemp : parse_measurement_file fp sd = [] ∨
        parse_measurement_file fv sd = [] ∨ parse_measurement_file fc sd = []
    · rw [if_pos hemp] at hrows
      exact absurd hrows (by simp)
    · rw [if_neg hemp] at hrows
      injection hrows with hrows
      rw [← hrows] at hr
      rcases List.mem_map.mp hr with ⟨x, hxmem, hxeq⟩
      rw [← hxeq] at hp hq
      simp only [mkMerged] at hp hq
      rw [hp, Option.map_some'] at hq
      rw [Option.some.injEq] at hq
      rw [← hq]
      exact div_nonneg (mul_nonneg hp0 (by norm_num)) (by norm_num)
  · intro nrows s hs
    unfold simulate_pv_production at hs
    rcases List.mem_map.mp hs with ⟨r, hrmem, hre⟩
    rw [← hre]
    dsimp only
    have hirr : 0 ≤ (if r.irradiance < 0 then 0 else r.irradiance) := by
      split
      · exact le_refl 0
      · next h => exact le_of_not_lt h
    have hppm : 0 ≤ (if r.irradiance < 0 then 0 else r.irradiance) *
        MODULE_AREA * MODULE_EFFICIENCY * PERFORMANCE_RATIO * 1 / 1000 := by
      apply div_nonneg _ (by norm_num)
      exact mul_nonneg (mul_nonneg (mul_nonneg (mul_nonneg hirr hA) hE) hP)
        (by norm_num)
    exact ⟨hppm, mul_nonneg hppm hN⟩

/-- Claim C7, witness: a concrete measured record with power 1000 W gets
`production_kWh = 1000 * 0.25 / 1000 ≥ 0`, and a concrete modeled record
with irradiance 300 has non-negative per-module and total production. -/
theorem energy_kwh_nonneg_witness :
    (0 : ℚ) ≤ 1000 * (1/4) / 1000 ∧
    (0 ≤ (if (300 : ℚ) < 0 then 0 else (300 : ℚ)) * MODULE_AREA *
        MODULE_EFFICIENCY * PERFORMANCE_RATIO * 1 / 1000 ∧
     0 ≤ (if (300 : ℚ) < 0 then 0 else (300 : ℚ)) * MODULE_AREA *
        MODULE_EFFICIENCY * PERFORMANCE_RATIO * 1 / 1000 * LICZBA_MODULI) :=
  ⟨energy_kwh_nonneg.1 (some ["08:00 1;1000"]) (some ["08:00 1;230"])
      (some ["08:00 1;5"]) 0 6
      [⟨⟨0, 8, 0, 0⟩, some 1000, some 230, some 5, some (1000 * (1/4) / 1000),
        some (230 * 5)⟩]
      (by with_unfolding_all decide)
      ⟨⟨0, 8, 0, 0⟩, some 1000, some 230, some 5, some (1000 * (1/4) / 1000),
        some (230 * 5)⟩
      (List.mem_singleton.mpr rfl) 1000 rfl (by norm_num)
      (1000 * (1/4) / 1000) rfl,
   energy_kwh_nonneg.2 [⟨⟨0, 12, 0, 0⟩, 300⟩]
      ⟨⟨0, 12, 0, 0⟩, (if (300 : ℚ) < 0 then 0 else (300 : ℚ)),
        (if (300 : ℚ) < 0 then 0 else (300 : ℚ)) * MODULE_AREA *
          MODULE_EFFICIENCY * PERFORMANCE_RATIO * 1 / 1000,
        (if (300 : ℚ) < 0 then 0 else (300 : ℚ)) * MODULE_AREA *
          MODULE_EFFICIENCY * PERFORMANCE_RATIO * 1 / 1000 * LICZBA_MODULI⟩
      (by simp [simulate_pv_production])⟩
